import Mathlib

/-!
# Futsal Leaderboard backend — verification of the spec's claims

Shallow embedding of `src/main.py` (FastAPI + MongoDB futsal leaderboard
backend) and `src/schemas.py`.  The Mongo database is modelled as three
association lists (`teams`, `players`, `matches`) keyed by `Id` (ObjectId
modelled as `Nat`).  Endpoint handlers become pure functions over that
state; fallible handlers return `Except HTTPError`.  Mongo aggregation
pipelines (`leaderboard_teams`, `leaderboard_players`) become explicit
list transformations mirroring the pipeline stages of the source.
-/

namespace Futsal

/-- ObjectId, modelled as a natural number. -/
abbrev Id := Nat

/-- HTTP error as raised by `HTTPException(status_code, detail)`. -/
structure HTTPError where
  status : Nat
  detail : String
deriving DecidableEq, Repr

/-- Error `HTTPException(404, "Match not found")` of `add_event` / `end_match`. -/
def matchNotFound : HTTPError := ⟨404, "Match not found"⟩

/-- Error `HTTPException(400, f"Invalid id: ...")` of `to_object_id`. -/
def invalidIdErr (s : String) : HTTPError := ⟨400, "Invalid id: " ++ s⟩

/-- Error `HTTPException(400, "Team already exists in this city")` of `create_team`. -/
def teamExistsErr : HTTPError := ⟨400, "Team already exists in this city"⟩

/-- Event types, `Literal["goal","assist","yellow","red","own_goal","substitution"]`. -/
inductive EventType where
  | goal
  | assist
  | yellow
  | red
  | own_goal
  | substitution
deriving DecidableEq, Repr

/-- Schema `Team` (schemas.py): name, country, city, optional coach/logo. -/
structure Team where
  name : String
  country : String
  city : String
  coach : Option String := none
  logo_url : Option String := none
deriving DecidableEq, Repr

/-- Schema `Player` (schemas.py). -/
structure Player where
  name : String
  position : String
  team_id : Option Id := none
  number : Option Nat := none
  country : Option String := none
  city : Option String := none
  avatar_url : Option String := none
deriving DecidableEq, Repr

/-- Schema `MatchEvent`: an event stored embedded inside `Match.events`. -/
structure MatchEvent where
  timestamp : Nat
  type : EventType
  team_id : Option Id
  player_id : Option Id
  secondary_player_id : Option Id
  minute : Option Nat
  notes : Option String
deriving DecidableEq, Repr

/-- Request body `EventCreate` of `add_event`. -/
structure EventCreate where
  type : EventType
  team_id : Option Id := none
  player_id : Option Id := none
  secondary_player_id : Option Id := none
  minute : Option Nat := none
  notes : Option String := none
deriving DecidableEq, Repr

/-- The event document built inside `add_event` (`ev["timestamp"] = utcnow()`). -/
def mkEvent (e : EventCreate) (now : Nat) : MatchEvent :=
  ⟨now, e.type, e.team_id, e.player_id, e.secondary_player_id, e.minute, e.notes⟩

/-- Schema `Match` / the document inserted by `start_match`. -/
structure MatchDoc where
  home_team_id : Id
  away_team_id : Id
  started_at : Nat
  ended_at : Option Nat
  events : List MatchEvent
  home_score : Nat
  away_score : Nat
  winner_team_id : Option Id
deriving DecidableEq, Repr

/-- The Mongo database: collections `team`, `player`, `match`, each a list of
`_id`-keyed documents in insertion order. -/
structure DB where
  teams : List (Id × Team)
  players : List (Id × Player)
  matchColl : List (Id × MatchDoc)
deriving DecidableEq, Repr

/-- Lookup `db.match.find_one` by id. -/
def findMatch (s : DB) (mid : Id) : Option MatchDoc :=
  (s.matchColl.find? (fun p => p.1 == mid)).map (fun p => p.2)

/-- Lookup `db.team.find_one` by id. -/
def findTeam (s : DB) (tid : Id) : Option Team :=
  (s.teams.find? (fun p => p.1 == tid)).map (fun p => p.2)

/-- Lookup `db.player.find_one` by id. -/
def findPlayer (s : DB) (pid : Id) : Option Player :=
  (s.players.find? (fun p => p.1 == pid)).map (fun p => p.2)

/-- Model of `db.match.update_one` by id: update the first document whose
`_id` is `mid`. -/
def updateFirst (ms : List (Id × MatchDoc)) (mid : Id) (f : MatchDoc → MatchDoc) :
    List (Id × MatchDoc) :=
  match ms with
  | [] => []
  | p :: rest =>
    if p.1 == mid then (p.1, f p.2) :: rest else p :: updateFirst rest mid f

/-- Endpoint `POST /teams` (`create_team`): reject when a team with the same
(name, country, city) already exists, otherwise insert. -/
def create_team (s : DB) (team : Team) (newId : Id) : Except HTTPError (DB × Id) :=
  match s.teams.find? (fun p =>
      p.2.name == team.name && p.2.country == team.country && p.2.city == team.city) with
  | some _ => .error teamExistsErr
  | none => .ok ({ s with teams := s.teams ++ [(newId, team)] }, newId)

/-- The match document inserted by `start_match`. -/
def newMatch (home away : Id) (now : Nat) : MatchDoc :=
  { home_team_id := home
    away_team_id := away
    started_at := now
    ended_at := none
    events := []
    home_score := 0
    away_score := 0
    winner_team_id := none }

/-- Endpoint `POST /matches/start` (`start_match`). -/
def start_match (s : DB) (home away : Id) (newId : Id) (now : Nat) : DB :=
  { s with matchColl := s.matchColl ++ [(newId, newMatch home away now)] }

/-- The single-document update performed by `add_event` on the fetched match:
score increment per event type and team, plus `$push` of the event. -/
def applyEventToMatch (m : MatchDoc) (e : EventCreate) (now : Nat) : MatchDoc :=
  let ev := mkEvent e now
  if e.type = .goal then
    if ev.team_id = some m.home_team_id then
      { m with home_score := m.home_score + 1, events := m.events ++ [ev] }
    else if ev.team_id = some m.away_team_id then
      { m with away_score := m.away_score + 1, events := m.events ++ [ev] }
    else
      { m with events := m.events ++ [ev] }
  else if e.type = .own_goal then
    if ev.team_id = some m.home_team_id then
      { m with away_score := m.away_score + 1, events := m.events ++ [ev] }
    else if ev.team_id = some m.away_team_id then
      { m with home_score := m.home_score + 1, events := m.events ++ [ev] }
    else
      { m with events := m.events ++ [ev] }
  else
    { m with events := m.events ++ [ev] }

/-- Endpoint `POST /matches/.../event` (`add_event`): 404 when the match does not
resolve, otherwise one atomic increment-and-push update. -/
def add_event (s : DB) (mid : Id) (e : EventCreate) (now : Nat) :
    Except HTTPError DB :=
  match s.matchColl.find? (fun p => p.1 == mid) with
  | none => .error matchNotFound
  | some _ =>
    .ok { s with matchColl := updateFirst s.matchColl mid (fun m => applyEventToMatch m e now) }

/-- The winner computation inside `end_match`, evaluated on the fetched match's
score counters. -/
def winnerOf (m : MatchDoc) : Option Id :=
  if m.home_score > m.away_score then some m.home_team_id
  else if m.away_score > m.home_score then some m.away_team_id
  else none

/-- Endpoint `POST /matches/.../end` (`end_match`): 404 when the match does not
resolve, otherwise set `ended_at` and `winner_team_id`. -/
def end_match (s : DB) (mid : Id) (now : Nat) : Except HTTPError DB :=
  match s.matchColl.find? (fun p => p.1 == mid) with
  | none => .error matchNotFound
  | some p =>
    let setEnd : MatchDoc → MatchDoc :=
      fun m => { m with ended_at := some now, winner_team_id := winnerOf p.2 }
    .ok { s with matchColl := updateFirst s.matchColl mid setEnd }

/-! ## Leaderboard pipelines -/

/-- Python truthiness of an optional query string (`if country:` is false for
both `None` and the empty string). -/
def isTruthy : Option String → Bool
  | none => false
  | some s => !(s == "")

/-- Leaderboard scope, `Literal["global","country","city"]`. -/
inductive Scope where
  | globalScope
  | country
  | city
deriving DecidableEq, Repr

/-- Team leaderboard statistic, `Literal["goals","wins","points"]`. -/
inductive TeamStat where
  | goals
  | wins
  | points
deriving DecidableEq, Repr

/-- Player leaderboard statistic, `Literal["goals","assists","yellow","red"]`. -/
inductive PlayerStat where
  | goals
  | assists
  | yellow
  | red
deriving DecidableEq, Repr

/-- Stage `$group` accumulator (group by key, count with sum 1)
applied to one more key, keeping first-occurrence order of groups. -/
def bumpKey {α : Type} [DecidableEq α] (acc : List (α × Nat)) (k : α) :
    List (α × Nat) :=
  match acc with
  | [] => [(k, 1)]
  | a :: rest => if a.1 = k then (a.1, a.2 + 1) :: rest else a :: bumpKey rest k

/-- Count-grouping of a key list, the pure rendering of Mongo
`$group / $sum: 1`. -/
def countGroup {α : Type} [DecidableEq α] (keys : List α) : List (α × Nat) :=
  keys.foldl bumpKey []

/-- Stable insertion into a descending-by-measure list: an element goes before
the first strictly-smaller entry, so equal measures keep input order. -/
def insertDesc {α : Type} (meas : α → Nat) (x : α) : List α → List α
  | [] => [x]
  | y :: ys => if meas y ≤ meas x then x :: y :: ys else y :: insertDesc meas x ys

/-- Stable sort, descending by `meas` (`$sort: {key: -1}`). -/
def sortDesc {α : Type} (meas : α → Nat) : List α → List α
  | [] => []
  | x :: xs => insertDesc meas x (sortDesc meas xs)

/-- Stage `$unwind` on events over the whole `match` collection: all events of all
matches, in collection and log order. -/
def allEvents (s : DB) : List MatchEvent :=
  s.matchColl.flatMap (fun p => p.2.events)

/-- The `$match {"events.type": {"$in": ["goal","assist","yellow","red"]}}`
predicate. -/
def isCountedType (e : MatchEvent) : Bool :=
  e.type == .goal || e.type == .assist || e.type == .yellow || e.type == .red

/-- The grouped (key, count) rows produced by the player pipeline before
`$sort` and `$limit`: stat-specific event filter and grouping key. -/
def playerGroups (s : DB) (stat : PlayerStat) : List (Option Id × Nat) :=
  let evs := (allEvents s).filter isCountedType
  let keys : List (Option Id) :=
    match stat with
    | .goals => (evs.filter (fun e => e.type == .goal)).map (fun e => e.player_id)
    | .assists =>
      ((evs.filter (fun e => e.type == .assist || e.type == .goal)).map
        (fun e => if e.type == .goal then e.secondary_player_id else e.player_id))
    | .yellow => (evs.filter (fun e => e.type == .yellow)).map (fun e => e.player_id)
    | .red => (evs.filter (fun e => e.type == .red)).map (fun e => e.player_id)
  countGroup keys

/-- The scope filter on players: `player_filter` as an optional country
constraint and an optional city constraint. -/
def playerFilterFields (scope : Scope) (country city : Option String) :
    Option String × Option String :=
  (if scope == .country && isTruthy country then country else none,
   if scope == .city && isTruthy city then city else none)

/-- Membership test of `db.player.find(player_filter)`. -/
def playerMatchesFilter (pf : Option String × Option String) (p : Player) : Bool :=
  (match pf.1 with
   | none => true
   | some c => p.country == some c) &&
  (match pf.2 with
   | none => true
   | some c => p.city == some c)

/-- Resolved `player_ids`: `none` when `player_filter` is empty, otherwise the ids of
the players matching it. -/
def playerScopeIds (s : DB) (scope : Scope) (country city : Option String) :
    Option (List Id) :=
  let pf := playerFilterFields scope country city
  if pf.1.isSome || pf.2.isSome then
    some ((s.players.filter (fun p => playerMatchesFilter pf p.2)).map (fun p => p.1))
  else
    none

/-- One row of the `/leaderboard/players` response. -/
structure PlayerLBRow where
  player_id : Id
  player_name : String
  team_name : Option String
  count : Nat
  country : Option String
  city : Option String
deriving DecidableEq, Repr

/-- The enrichment loop of `leaderboard_players`: skip `None` group keys, skip
rows whose player lookup fails, join the player's current team name. -/
def enrichPlayerRow (s : DB) (r : Option Id × Nat) : Option PlayerLBRow :=
  match r.1 with
  | none => none
  | some pid =>
    match findPlayer s pid with
    | none => none
    | some p =>
      let team : Option Team :=
        match p.team_id with
        | some tid => findTeam s tid
        | none => none
      some ⟨pid, p.name, team.map (fun t => t.name), r.2, p.country, p.city⟩

/-- Endpoint `GET /leaderboard/players` (`leaderboard_players`): resolve the scope's
player-id set (short-circuit to `[]` when it is empty), group event counts,
`$sort` descending by count, `$limit`, then post-filter by the scope set and
enrich. -/
def leaderboard_players (s : DB) (scope : Scope) (country city : Option String)
    (stat : PlayerStat) (limit : Nat) : List PlayerLBRow :=
  let player_ids := playerScopeIds s scope country city
  if player_ids == some [] then []
  else
    let rows := ((sortDesc (fun r : Option Id × Nat => r.2) (playerGroups s stat)).take limit)
    let rows2 :=
      match player_ids with
      | some ids =>
        rows.filter (fun r : Option Id × Nat =>
          match r.1 with
          | some pid => ids.contains pid
          | none => false)
      | none => rows
    rows2.filterMap (enrichPlayerRow s)

/-- One element of the per-match `pairs` array built by the team pipeline's
second `$project` stage. -/
structure TeamPairRow where
  team : Id
  goals_for : Nat
  goals_against : Nat
  win : Nat
  draw : Nat
deriving DecidableEq, Repr

/-- The `pairs` array of one match: a home-side row and an away-side row. -/
def pairsForMatch (m : MatchDoc) : List TeamPairRow :=
  [⟨m.home_team_id, m.home_score, m.away_score,
      if m.home_score > m.away_score then 1 else 0,
      if m.home_score == m.away_score then 1 else 0⟩,
   ⟨m.away_team_id, m.away_score, m.home_score,
      if m.away_score > m.home_score then 1 else 0,
      if m.home_score == m.away_score then 1 else 0⟩]

/-- Grouped team totals (`$group` by `pairs.team`, summing goals/wins/draws). -/
structure TeamAgg where
  team : Id
  goals : Nat
  wins : Nat
  draws : Nat
deriving DecidableEq, Repr

/-- Fold one pair row into the grouped accumulator, keeping first-occurrence
order of groups. -/
def addPairRow (acc : List TeamAgg) (r : TeamPairRow) : List TeamAgg :=
  match acc with
  | [] => [⟨r.team, r.goals_for, r.win, r.draw⟩]
  | a :: rest =>
    if a.team = r.team then
      ⟨a.team, a.goals + r.goals_for, a.wins + r.win, a.draws + r.draw⟩ :: rest
    else
      a :: addPairRow rest r

/-- The grouped rows of the team pipeline over a candidate match list. -/
def teamGroups (ms : List MatchDoc) : List TeamAgg :=
  (ms.flatMap pairsForMatch).foldl addPairRow []

/-- Grouped team totals after the `$addFields` stage computing `points`. -/
structure TeamAggP where
  team : Id
  goals : Nat
  wins : Nat
  draws : Nat
  points : Nat
deriving DecidableEq, Repr

/-- Stage `$addFields` computing points as wins * 3 + draws. -/
def addPoints (a : TeamAgg) : TeamAggP :=
  ⟨a.team, a.goals, a.wins, a.draws, a.wins * 3 + a.draws⟩

/-- The sort key selected by the `stat` query parameter. -/
def teamStatKey (stat : TeamStat) (a : TeamAggP) : Nat :=
  match stat with
  | .goals => a.goals
  | .wins => a.wins
  | .points => a.points

/-- One row of the `/leaderboard/teams` response. -/
structure TeamLBRow where
  team_id : Id
  team_name : String
  country : String
  city : String
  goals : Nat
  wins : Nat
  points : Nat
deriving DecidableEq, Repr

/-- The enrichment loop of `leaderboard_teams`: join team details, silently
dropping rows whose team lookup fails. -/
def enrichTeamRow (s : DB) (a : TeamAggP) : Option TeamLBRow :=
  match findTeam s a.team with
  | none => none
  | some t => some ⟨a.team, t.name, t.country, t.city, a.goals, a.wins, a.points⟩

/-- Membership test of `team_filter` in `leaderboard_teams`. -/
def teamMatchesFilter (tf : Option String × Option String) (t : Team) : Bool :=
  (match tf.1 with
   | none => true
   | some c => t.country == c) &&
  (match tf.2 with
   | none => true
   | some c => t.city == c)

/-- The resolved team-id set of a country/city-scoped team leaderboard query. -/
def teamScopeIds (s : DB) (scope : Scope) (country city : Option String) : List Id :=
  let tf : Option String × Option String :=
    (if isTruthy country then country else none,
     if scope == .city && isTruthy city then city else none)
  (s.teams.filter (fun p => teamMatchesFilter tf p.2)).map (fun p => p.1)

/-- The aggregation-plus-enrichment shared by every `leaderboard_teams` path:
group, add points, `$sort` by the requested stat descending, `$limit`, join. -/
def teamPipeline (s : DB) (ms : List MatchDoc) (stat : TeamStat) (limit : Nat) :
    List TeamLBRow :=
  let rows := (sortDesc (teamStatKey stat) ((teamGroups ms).map addPoints)).take limit
  rows.filterMap (enrichTeamRow s)

/-- Endpoint `GET /leaderboard/teams` (`leaderboard_teams`): for country/city scope,
resolve the team-id set (short-circuit to `[]` when empty) and keep only
matches with a scoped home or away team; then aggregate. -/
def leaderboard_teams (s : DB) (scope : Scope) (country city : Option String)
    (stat : TeamStat) (limit : Nat) : List TeamLBRow :=
  if scope == .country || scope == .city then
    let team_ids := teamScopeIds s scope country city
    if team_ids.isEmpty then []
    else
      let ms := (s.matchColl.filter (fun p =>
        team_ids.contains p.2.home_team_id || team_ids.contains p.2.away_team_id)).map
        (fun p => p.2)
      teamPipeline s ms stat limit
  else
    teamPipeline s (s.matchColl.map (fun p => p.2)) stat limit

/-! ## Spec-side definitions

Definitions written from the spec's words, to be compared with the embedded
code above. -/

/-- Spec's `credit` home delta: "+1 if event_team == home_team for a goal;
+1 if event_team == away_team for an own goal; otherwise no delta". -/
def specHomeDelta (e : EventCreate) (home away : Id) : Nat :=
  (if e.type = .goal ∧ e.team_id = some home then 1 else 0) +
  (if e.type = .own_goal ∧ e.team_id = some away then 1 else 0)

/-- Spec's `credit` away delta, mirrored. -/
def specAwayDelta (e : EventCreate) (home away : Id) : Nat :=
  (if e.type = .goal ∧ e.team_id = some away then 1 else 0) +
  (if e.type = .own_goal ∧ e.team_id = some home then 1 else 0)

/-- Spec's `outcome(home_score, away_score)`: home wins, away wins, or an
explicit no-winner value for a draw. -/
def specOutcome (hs aws : Nat) (home away : Id) : Option Id :=
  if hs > aws then some home
  else if aws > hs then some away
  else none

/-- Does this event "effectively credit the home side" per the spec: a goal
event of the home team, or an own goal of the away team. -/
def creditsHomeB (home away : Id) (e : MatchEvent) : Bool :=
  (e.type == .goal && e.team_id == some home) ||
  (e.type == .own_goal && e.team_id == some away)

/-- Does this event "effectively credit the away side" per the spec. -/
def creditsAwayB (home away : Id) (e : MatchEvent) : Bool :=
  (e.type == .goal && e.team_id == some away) ||
  (e.type == .own_goal && e.team_id == some home)

/-- Count of stored events effectively crediting the home side. -/
def homeCreditEvents (m : MatchDoc) : Nat :=
  (m.events.filter (creditsHomeB m.home_team_id m.away_team_id)).length

/-- Count of stored events effectively crediting the away side. -/
def awayCreditEvents (m : MatchDoc) : Nat :=
  (m.events.filter (creditsAwayB m.home_team_id m.away_team_id)).length

/-- The score invariant of the spec: each counter equals the count of events
effectively crediting that side. -/
def scoreInvB (m : MatchDoc) : Bool :=
  m.home_score == homeCreditEvents m && m.away_score == awayCreditEvents m

/-- The score invariant restricted to matches whose two sides are distinct
teams (for a degenerate self-match the first matching branch of `add_event`
wins, see `C4`). -/
def allScoreInvB (s : DB) : Bool :=
  s.matchColl.all (fun p => p.2.home_team_id == p.2.away_team_id || scoreInvB p.2)

/-- A state-mutating operation of the match lifecycle. -/
inductive Op where
  | startOp (home away newId now : Nat)
  | eventOp (mid : Id) (e : EventCreate) (now : Nat)
  | endOp (mid : Id) (now : Nat)
deriving DecidableEq, Repr

/-- Run one lifecycle operation; a failing call leaves the state unchanged. -/
def applyOp (s : DB) : Op → DB
  | .startOp h a i n => start_match s h a i n
  | .eventOp mid e n =>
    match add_event s mid e n with
    | .ok s2 => s2
    | .error _ => s
  | .endOp mid n =>
    match end_match s mid n with
    | .ok s2 => s2
    | .error _ => s

/-- Run a sequence of lifecycle operations. -/
def applyOps (s : DB) (ops : List Op) : DB :=
  ops.foldl applyOp s

/-- Lookup of a grouped count by key (0 when the key has no group). -/
def groupCountOf {α : Type} [DecidableEq α] (g : List (α × Nat)) (k : α) : Nat :=
  match g.find? (fun e => e.1 == k) with
  | some e => e.2
  | none => 0

/-- The spec's assist-attribution predicate: a goal event whose secondary
player is `p`, or an assist event whose primary player is `p`. -/
def assistCreditsB (p : Id) (e : MatchEvent) : Bool :=
  (e.type == .goal && e.secondary_player_id == some p) ||
  (e.type == .assist && e.player_id == some p)

/-- Grouped-team accessor: total goals of team `t` (0 when absent). -/
def aggGoals (g : List TeamAgg) (t : Id) : Nat :=
  match g.find? (fun a => a.team == t) with
  | some a => a.goals
  | none => 0

/-- Grouped-team accessor: total wins of team `t` (0 when absent). -/
def aggWins (g : List TeamAgg) (t : Id) : Nat :=
  match g.find? (fun a => a.team == t) with
  | some a => a.wins
  | none => 0

/-- Grouped-team accessor: total draws of team `t` (0 when absent). -/
def aggDraws (g : List TeamAgg) (t : Id) : Nat :=
  match g.find? (fun a => a.team == t) with
  | some a => a.draws
  | none => 0

/-- Accessor on the rows after `$addFields`: points of team `t`. -/
def aggPoints (g : List TeamAggP) (t : Id) : Nat :=
  match g.find? (fun a => a.team == t) with
  | some a => a.points
  | none => 0

/-- Spec's per-match goals contribution of team `t` (step 2 of the team
leaderboard: `goals_for` of each side the team occupies). -/
def specGoalsFor (t : Id) (m : MatchDoc) : Nat :=
  (if m.home_team_id = t then m.home_score else 0) +
  (if m.away_team_id = t then m.away_score else 0)

/-- Spec's per-match wins contribution of team `t`. -/
def specWinsFor (t : Id) (m : MatchDoc) : Nat :=
  (if m.home_team_id = t ∧ m.home_score > m.away_score then 1 else 0) +
  (if m.away_team_id = t ∧ m.away_score > m.home_score then 1 else 0)

/-- Spec's per-match draws contribution of team `t`. -/
def specDrawsFor (t : Id) (m : MatchDoc) : Nat :=
  (if m.home_team_id = t ∧ m.home_score = m.away_score then 1 else 0) +
  (if m.away_team_id = t ∧ m.home_score = m.away_score then 1 else 0)

/-- All stored match documents, in collection order. -/
def matchDocs (s : DB) : List MatchDoc :=
  s.matchColl.map (fun p => p.2)

/-- Overwrite every stored match's `ended_at` with the same value (used to
state that the team leaderboard ignores whether matches have ended). -/
def setEndedAll (s : DB) (v : Option Nat) : DB :=
  { s with matchColl := s.matchColl.map (fun p => (p.1, { p.2 with ended_at := v })) }

/-- Tuple identity of the team-uniqueness invariant. -/
def tupleEqB (a b : Team) : Bool :=
  a.name == b.name && a.country == b.country && a.city == b.city

/-- No two stored teams share a (name, country, city) tuple. -/
def noDupTuplesB : List (Id × Team) → Bool
  | [] => true
  | p :: rest => rest.all (fun q => !(tupleEqB p.2 q.2)) && noDupTuplesB rest

/-- The spec's invariant stated over every stored match with no restriction. -/
def claimScoreInvAllB (s : DB) : Bool :=
  s.matchColl.all (fun p => scoreInvB p.2)

/-! ## Concrete databases used in example-level statements -/

/-- The empty database. -/
def emptyDB : DB := ⟨[], [], []⟩

/-- One match holding a goal with an assister recorded in the secondary slot
(player 1) and a separate assist event (player 2); all three players stored. -/
def dbC1 : DB :=
  { teams := []
    players := [(1, { name := "P", position := "FWD" }),
                (2, { name := "Q", position := "MID" }),
                (3, { name := "S", position := "FWD" })]
    matchColl := [(10,
      { home_team_id := 100, away_team_id := 101, started_at := 0, ended_at := none
        events := [⟨1, .goal, some 100, some 3, some 1, some 5, none⟩,
                   ⟨2, .assist, some 100, some 2, none, some 5, none⟩]
        home_score := 1, away_score := 0, winner_team_id := none })] }

/-- Player 5 (country "B") has two goals, player 6 (country "A") has one. -/
def dbC2 : DB :=
  { teams := []
    players := [(5, { name := "X", position := "FWD", country := some "B" }),
                (6, { name := "Y", position := "FWD", country := some "A" })]
    matchColl := [(10,
      { home_team_id := 100, away_team_id := 101, started_at := 0, ended_at := none
        events := [⟨1, .goal, some 100, some 5, none, none, none⟩,
                   ⟨2, .goal, some 100, some 5, none, none, none⟩,
                   ⟨3, .goal, some 100, some 6, none, none, none⟩]
        home_score := 3, away_score := 0, winner_team_id := none })] }

/-- A degenerate self-match: team 7 occupies both sides (nothing in
`start_match` forbids this). -/
def dbC3 : DB :=
  { teams := [], players := []
    matchColl := [(10,
      { home_team_id := 7, away_team_id := 7, started_at := 0, ended_at := none
        events := [], home_score := 0, away_score := 0, winner_team_id := none })] }

/-- A goal event of team 7. -/
def goalEv7 : EventCreate := { type := .goal, team_id := some 7 }

/-- An ordinary match between distinct teams 1 and 2, in progress at 0-0. -/
def mC3w : MatchDoc :=
  { home_team_id := 1, away_team_id := 2, started_at := 0, ended_at := none
    events := [], home_score := 0, away_score := 0, winner_team_id := none }

/-- Database holding only `mC3w` under id 10. -/
def dbC3w : DB := ⟨[], [], [(10, mC3w)]⟩

/-- An ordinary match between teams 1 and 2 with a 2-1 score. -/
def mC5 : MatchDoc :=
  { home_team_id := 1, away_team_id := 2, started_at := 0, ended_at := none
    events := [], home_score := 2, away_score := 1, winner_team_id := none }

/-- Database holding only `mC5` under id 21. -/
def dbC5 : DB := ⟨[], [], [(21, mC5)]⟩

/-- A team record used for conflict scenarios. -/
def teamFalcons : Team := { name := "Falcons", country := "X", city := "Y" }

/-- Teams 100 and 101 stored, no players, no matches. -/
def dbC9 : DB :=
  ⟨[(100, { name := "H", country := "X", city := "Y" }),
    (101, { name := "A", country := "X", city := "Z" })], [], []⟩

/-- A match ended at 1-0 (winner: home team 1) that afterwards received two
own-goal events of the home team, flipping the live scores to 1-2. -/
def dbC10 : DB := applyOps emptyDB
  [.startOp 1 2 10 0,
   .eventOp 10 { type := .goal, team_id := some 1 } 1,
   .endOp 10 2,
   .eventOp 10 { type := .own_goal, team_id := some 1 } 3,
   .eventOp 10 { type := .own_goal, team_id := some 1 } 4]

/-- The match document stored in `dbC10` under id 10. -/
def mC10 : MatchDoc :=
  { home_team_id := 1, away_team_id := 2, started_at := 0, ended_at := some 2
    events := [⟨1, .goal, some 1, none, none, none, none⟩,
               ⟨3, .own_goal, some 1, none, none, none, none⟩,
               ⟨4, .own_goal, some 1, none, none, none, none⟩]
    home_score := 1, away_score := 2, winner_team_id := some 1 }

end Futsal

/-! ## Theorems -/

namespace Futsal

/-- Effect of `update_one` on the first id-matching document, seen through `find_one`. -/
theorem updateFirst_find (ms : List (Id × MatchDoc)) (mid : Id) (f : MatchDoc → MatchDoc) :
    (updateFirst ms mid f).find? (fun p => p.1 == mid) =
      (ms.find? (fun p => p.1 == mid)).map (fun p => (p.1, f p.2)) := by
  induction ms with
  | nil => simp [updateFirst]
  | cons p rest ih =>
    rw [updateFirst]
    by_cases h : (p.1 == mid) = true
    · simp [h]
    · simp [h, ih]

/-- Result of `find_one` after an `update_one` targeting the same id. -/
theorem findMatch_updateFirst (s : DB) (mid : Id) (f : MatchDoc → MatchDoc) :
    findMatch { s with matchColl := updateFirst s.matchColl mid f } mid =
      (findMatch s mid).map f := by
  unfold findMatch
  rw [updateFirst_find]
  cases s.matchColl.find? (fun p => p.1 == mid) <;> rfl

/-- The winner branch of `end_match` agrees with the spec's `outcome`. -/
theorem winnerOf_eq_specOutcome (m : MatchDoc) :
    winnerOf m = specOutcome m.home_score m.away_score m.home_team_id m.away_team_id := rfl

/-- C5: `end_match` on an existing match succeeds (a draw included), sets the
end timestamp, and computes the winner with the spec's `outcome` applied to
the score counters current at the moment of ending (never from the event
log): home team when `home_score > away_score`, away team when
`away_score > home_score`, and the explicit no-winner value on equality. -/
theorem end_match_outcome (s : DB) (mid : Id) (now : Nat) (m : MatchDoc)
    (h : findMatch s mid = some m) :
    (end_match s mid now).map (fun s2 => findMatch s2 mid) =
      .ok (some { m with
        ended_at := some now
        winner_team_id :=
          specOutcome m.home_score m.away_score m.home_team_id m.away_team_id }) := by
  unfold findMatch at h
  cases hf : s.matchColl.find? (fun p => p.1 == mid) with
  | none => rw [hf] at h; exact absurd h (by simp)
  | some p =>
    rw [hf] at h
    simp only [Option.map_some', Option.some.injEq] at h
    subst h
    unfold end_match
    rw [hf]
    simp only [Except.map]
    rw [findMatch_updateFirst]
    unfold findMatch
    rw [hf]
    simp [winnerOf_eq_specOutcome]

/-- Witness for C5 at a concrete 2-1 match. -/
theorem end_match_outcome_witness :
    findMatch dbC5 21 = some mC5 ∧
    (end_match dbC5 21 5).map (fun s2 => findMatch s2 21) =
      .ok (some { mC5 with
        ended_at := some 5
        winner_team_id :=
          specOutcome mC5.home_score mC5.away_score mC5.home_team_id mC5.away_team_id }) :=
  ⟨by decide, end_match_outcome dbC5 21 5 mC5 (by decide)⟩

/-- One `$group` step adds one to the bumped key's count and nothing else. -/
theorem groupCountOf_bumpKey {α : Type} [DecidableEq α] (acc : List (α × Nat)) (k0 k : α) :
    groupCountOf (bumpKey acc k0) k = groupCountOf acc k + (if k0 = k then 1 else 0) := by
  induction acc with
  | nil => by_cases h : k0 = k <;> simp [bumpKey, groupCountOf, h]
  | cons a rest ih =>
    by_cases h1 : a.1 = k0
    · by_cases h2 : a.1 = k <;>
        simp_all [bumpKey, groupCountOf]
    · by_cases h2 : a.1 = k
      · have hk : ¬k0 = k := fun hh => h1 (h2.trans hh.symm)
        simp_all [bumpKey, groupCountOf]
      · simp_all [bumpKey, groupCountOf]

/-- Stage `$group` with sum 1 computes, for every key, its number of
occurrences in the unwound key list. -/
theorem groupCountOf_countGroup {α : Type} [DecidableEq α] (ks : List α) (k : α) :
    groupCountOf (countGroup ks) k = ks.countP (fun x => decide (x = k)) := by
  suffices h : ∀ acc, groupCountOf (ks.foldl bumpKey acc) k =
      groupCountOf acc k + ks.countP (fun x => decide (x = k)) by
    simpa [countGroup, groupCountOf] using h []
  induction ks with
  | nil => intro acc; simp
  | cons k0 rest ih =>
    intro acc
    rw [List.foldl_cons, ih (bumpKey acc k0), groupCountOf_bumpKey, List.countP_cons]
    by_cases h : k0 = k
    · simp [h]
      omega
    · simp [h]

/-- The assist pipeline's derived key list counts, for each player, exactly
the events crediting that player an assist (goal events via the secondary
slot, assist events via the primary slot). -/
theorem assist_keys_count (evs : List MatchEvent) (p : Id) :
    (((evs.filter isCountedType).filter
        (fun e => e.type == .assist || e.type == .goal)).map
      (fun e => if e.type == .goal then e.secondary_player_id else e.player_id)).countP
        (fun kk => decide (kk = some p)) =
    (evs.filter (assistCreditsB p)).length := by
  induction evs with
  | nil => rfl
  | cons e rest ih =>
    cases he : e.type with
    | goal =>
      by_cases hs : e.secondary_player_id = some p <;>
        (simp [List.filter_cons, isCountedType, assistCreditsB, he, List.countP_cons, hs]
          at ih ⊢) <;> omega
    | assist =>
      by_cases hp : e.player_id = some p <;>
        (simp [List.filter_cons, isCountedType, assistCreditsB, he, List.countP_cons, hp]
          at ih ⊢) <;> omega
    | yellow =>
      simp [List.filter_cons, isCountedType, assistCreditsB, he, List.countP_cons] at ih ⊢
      omega
    | red =>
      simp [List.filter_cons, isCountedType, assistCreditsB, he, List.countP_cons] at ih ⊢
      omega
    | own_goal =>
      simp [List.filter_cons, isCountedType, assistCreditsB, he, List.countP_cons] at ih ⊢
      omega
    | substitution =>
      simp [List.filter_cons, isCountedType, assistCreditsB, he, List.countP_cons] at ih ⊢
      omega

/-- C1: with stat = assists, the pipeline's grouped count of every player `p`
equals the number of events crediting `p` — goal events via their secondary
player plus assist events via their primary player, counted once each (no
double counting, no omission); concretely, on `dbC1` (one goal with assister
P = 1, one separate assist by Q = 2) the leaderboard shows P and Q each with
count 1. -/
theorem assists_leaderboard_attribution :
    (∀ (s : DB) (p : Id),
      groupCountOf (playerGroups s .assists) (some p) =
        ((allEvents s).filter (assistCreditsB p)).length) ∧
    leaderboard_players dbC1 .globalScope none none .assists 20 =
      [⟨1, "P", none, 1, none, none⟩, ⟨2, "Q", none, 1, none, none⟩] := by
  constructor
  · intro s p
    simp only [playerGroups]
    rw [groupCountOf_countGroup]
    exact assist_keys_count (allEvents s) p
  · rfl

/-- A produced player-leaderboard row carries exactly the group key's id. -/
theorem enrichPlayerRow_player_id (s : DB) (a : Option Id × Nat) (r : PlayerLBRow)
    (h : enrichPlayerRow s a = some r) : a.1 = some r.player_id := by
  obtain ⟨a1, cnt⟩ := a
  cases a1 with
  | none => simp [enrichPlayerRow] at h
  | some pid =>
    simp only [enrichPlayerRow] at h
    cases hp : findPlayer s pid with
    | none => rw [hp] at h; simp at h
    | some pl =>
      rw [hp] at h
      simp only [Option.some.injEq] at h
      simp [← h]

/-- C2 (amended): when the scope resolves a player-id set, the set is applied
only after `$sort` and `$limit`: every returned row belongs to a
scope-eligible player AND to the global top-`limit` grouped rows, so a
scope-eligible player can be pushed out by out-of-scope players occupying
the truncated top. -/
theorem scope_filter_after_truncation (s : DB) (scope : Scope)
    (country city : Option String) (stat : PlayerStat) (limit : Nat) (ids : List Id)
    (h : playerScopeIds s scope country city = some ids) :
    (leaderboard_players s scope country city stat limit).all (fun r =>
      ids.contains r.player_id &&
      ((sortDesc (fun g : Option Id × Nat => g.2) (playerGroups s stat)).take limit).any
        (fun g => g.1 == some r.player_id)) = true := by
  unfold leaderboard_players
  simp only [h]
  by_cases hids : ids = []
  · subst hids
    simp
  · have hcond : (some ids == some ([] : List Id)) = false := by
      simp [hids]
    simp only [hcond, Bool.false_eq_true, if_false]
    rw [List.all_eq_true]
    intro r hr
    rw [List.mem_filterMap] at hr
    obtain ⟨a, ha2, henrich⟩ := hr
    rw [List.mem_filter] at ha2
    obtain ⟨hatake, hapred⟩ := ha2
    have hid := enrichPlayerRow_player_id s a r henrich
    rw [hid] at hapred
    simp only [Bool.and_eq_true]
    constructor
    · exact hapred
    · rw [List.any_eq_true]
      exact ⟨a, hatake, by simp [hid]⟩

/-- Witness for C2 (amended) on `dbC2` with limit 5. -/
theorem scope_filter_after_truncation_witness :
    playerScopeIds dbC2 .country (some "A") none = some [6] ∧
    (leaderboard_players dbC2 .country (some "A") none .goals 5).all (fun r =>
      [6].contains r.player_id &&
      ((sortDesc (fun g : Option Id × Nat => g.2) (playerGroups dbC2 .goals)).take 5).any
        (fun g => g.1 == some r.player_id)) = true :=
  ⟨by decide,
    scope_filter_after_truncation dbC2 .country (some "A") none .goals 5 [6] (by decide)⟩

/-- Counterexample to C2 as stated: on `dbC2` the country-"A" scope resolves
the non-empty set {6}, player 6 has a grouped count of 1, yet with limit 1
the returned leaderboard is empty — the out-of-scope player 5 (count 2)
occupies the single row kept by `$limit`, and the scope filter runs only
afterwards, omitting the scope-eligible player 6. -/
theorem scope_filter_counterexample :
    playerScopeIds dbC2 .country (some "A") none = some [6] ∧
    groupCountOf (playerGroups dbC2 .goals) (some 6) = 1 ∧
    leaderboard_players dbC2 .country (some "A") none .goals 1 = [] :=
  ⟨by decide, by decide, by rfl⟩

/-- Folding one pair row into the `$group` accumulator adds its goals, win
and draw to its team's totals and to nothing else. -/
theorem agg_addPairRow (acc : List TeamAgg) (r : TeamPairRow) (t : Id) :
    aggGoals (addPairRow acc r) t = aggGoals acc t + (if r.team = t then r.goals_for else 0) ∧
    aggWins (addPairRow acc r) t = aggWins acc t + (if r.team = t then r.win else 0) ∧
    aggDraws (addPairRow acc r) t = aggDraws acc t + (if r.team = t then r.draw else 0) := by
  induction acc with
  | nil => by_cases h : r.team = t <;> simp [addPairRow, aggGoals, aggWins, aggDraws, h]
  | cons a rest ih =>
    by_cases h1 : a.team = r.team
    · by_cases h2 : a.team = t <;> simp_all [addPairRow, aggGoals, aggWins, aggDraws]
    · by_cases h2 : a.team = t
      · have hrt : ¬r.team = t := fun hh => h1 (h2.trans hh.symm)
        simp_all [addPairRow, aggGoals, aggWins, aggDraws]
      · simp_all [addPairRow, aggGoals, aggWins, aggDraws]

/-- Grouping over a whole row list: totals are the sums of each team's own
row contributions. -/
theorem agg_foldl (rows : List TeamPairRow) (acc : List TeamAgg) (t : Id) :
    aggGoals (rows.foldl addPairRow acc) t =
      aggGoals acc t + (rows.map (fun r => if r.team = t then r.goals_for else 0)).sum ∧
    aggWins (rows.foldl addPairRow acc) t =
      aggWins acc t + (rows.map (fun r => if r.team = t then r.win else 0)).sum ∧
    aggDraws (rows.foldl addPairRow acc) t =
      aggDraws acc t + (rows.map (fun r => if r.team = t then r.draw else 0)).sum := by
  induction rows generalizing acc with
  | nil => simp
  | cons r rest ih =>
    rw [List.foldl_cons]
    obtain ⟨hg, hw, hd⟩ := ih (addPairRow acc r)
    obtain ⟨ag, aw, ad⟩ := agg_addPairRow acc r t
    refine ⟨?_, ?_, ?_⟩ <;>
      simp only [List.map_cons, List.sum_cons, hg, hw, hd, ag, aw, ad] <;> omega

/-- Summing a per-row function over the unwound pair rows match by match. -/
theorem sum_flatMap_pairs (f : TeamPairRow → Nat) (g : MatchDoc → Nat)
    (hper : ∀ m, ((pairsForMatch m).map f).sum = g m) (ms : List MatchDoc) :
    (((ms.flatMap pairsForMatch).map f)).sum = (ms.map g).sum := by
  induction ms with
  | nil => rfl
  | cons m rest ih =>
    simp only [List.flatMap_cons, List.map_append, List.sum_append, List.map_cons,
      List.sum_cons, hper, ih]

/-- The two pair rows of one match contribute `specGoalsFor` to team `t`. -/
theorem pairs_goals_sum (t : Id) (m : MatchDoc) :
    ((pairsForMatch m).map (fun r => if r.team = t then r.goals_for else 0)).sum =
      specGoalsFor t m := by
  simp [pairsForMatch, specGoalsFor]

/-- The two pair rows of one match contribute `specWinsFor` to team `t`. -/
theorem pairs_wins_sum (t : Id) (m : MatchDoc) :
    ((pairsForMatch m).map (fun r => if r.team = t then r.win else 0)).sum =
      specWinsFor t m := by
  by_cases h1 : m.home_team_id = t <;> by_cases h2 : m.away_team_id = t <;>
    by_cases h3 : m.home_score > m.away_score <;>
      by_cases h4 : m.away_score > m.home_score <;>
        simp [pairsForMatch, specWinsFor, h1, h2, h3, h4]

/-- The two pair rows of one match contribute `specDrawsFor` to team `t`. -/
theorem pairs_draws_sum (t : Id) (m : MatchDoc) :
    ((pairsForMatch m).map (fun r => if r.team = t then r.draw else 0)).sum =
      specDrawsFor t m := by
  by_cases h1 : m.home_team_id = t <;> by_cases h2 : m.away_team_id = t <;>
    by_cases h3 : m.home_score = m.away_score <;>
      simp [pairsForMatch, specDrawsFor, h1, h2, h3, beq_iff_eq]

/-- Grouped totals of the team pipeline: for every team, goals, wins and
draws are the sums of the spec's per-match contributions. -/
theorem teamGroups_sums (ms : List MatchDoc) (t : Id) :
    aggGoals (teamGroups ms) t = (ms.map (specGoalsFor t)).sum ∧
    aggWins (teamGroups ms) t = (ms.map (specWinsFor t)).sum ∧
    aggDraws (teamGroups ms) t = (ms.map (specDrawsFor t)).sum := by
  unfold teamGroups
  obtain ⟨hg, hw, hd⟩ := agg_foldl (ms.flatMap pairsForMatch) [] t
  refine ⟨?_, ?_, ?_⟩
  · rw [hg, sum_flatMap_pairs _ _ (pairs_goals_sum t) ms]
    simp [aggGoals]
  · rw [hw, sum_flatMap_pairs _ _ (pairs_wins_sum t) ms]
    simp [aggWins]
  · rw [hd, sum_flatMap_pairs _ _ (pairs_draws_sum t) ms]
    simp [aggDraws]

/-- Stage `$addFields` leaves each group in place, only adding the points field. -/
theorem find_map_addPoints (g : List TeamAgg) (t : Id) :
    (g.map addPoints).find? (fun a => a.team == t) =
      (g.find? (fun a => a.team == t)).map addPoints := by
  induction g with
  | nil => rfl
  | cons a rest ih =>
    by_cases h : (a.team == t) = true <;> simp [addPoints, h, ih]

/-- After `$addFields`, every team's points are wins × 3 + draws. -/
theorem aggPoints_map_addPoints (g : List TeamAgg) (t : Id) :
    aggPoints (g.map addPoints) t = aggWins g t * 3 + aggDraws g t := by
  unfold aggPoints aggWins aggDraws
  rw [find_map_addPoints]
  cases g.find? (fun a => a.team == t) <;> simp [addPoints]

/-- C6: every candidate match contributes exactly its home-side row
(goals_for = home_score, win = 1 iff home wins, draw = 1 iff scores equal)
and the mirrored away-side row; grouping sums goals, wins and draws per team
over home and away appearances combined, and each team's points equal
wins × 3 + draws × 1. -/
theorem team_leaderboard_aggregation (ms : List MatchDoc) (m : MatchDoc) (t : Id) :
    pairsForMatch m =
      [⟨m.home_team_id, m.home_score, m.away_score,
          if m.home_score > m.away_score then 1 else 0,
          if m.home_score = m.away_score then 1 else 0⟩,
       ⟨m.away_team_id, m.away_score, m.home_score,
          if m.away_score > m.home_score then 1 else 0,
          if m.home_score = m.away_score then 1 else 0⟩] ∧
    aggGoals (teamGroups ms) t = (ms.map (specGoalsFor t)).sum ∧
    aggWins (teamGroups ms) t = (ms.map (specWinsFor t)).sum ∧
    aggDraws (teamGroups ms) t = (ms.map (specDrawsFor t)).sum ∧
    aggPoints ((teamGroups ms).map addPoints) t =
      aggWins (teamGroups ms) t * 3 + aggDraws (teamGroups ms) t := by
  obtain ⟨hg, hw, hd⟩ := teamGroups_sums ms t
  refine ⟨?_, hg, hw, hd, aggPoints_map_addPoints (teamGroups ms) t⟩
  by_cases h : m.home_score = m.away_score <;> simp [pairsForMatch, h, beq_iff_eq]

/-- The pair rows of a match do not depend on its `ended_at` field. -/
theorem teamGroups_ignores_ended (ms : List MatchDoc) (v : Option Nat) :
    teamGroups (ms.map (fun m => { m with ended_at := v })) = teamGroups ms := by
  unfold teamGroups
  have : (ms.map (fun m => { m with ended_at := v })).flatMap pairsForMatch =
      ms.flatMap pairsForMatch := by
    induction ms with
    | nil => rfl
    | cons m rest ih => simp only [List.map_cons, List.flatMap_cons, ih]; rfl
  rw [this]

/-- C9: the team leaderboard's grouped totals are computed over all stored
matches with `ended_at` playing no role, and a match freshly inserted by
`start_match` (0-0, not ended) immediately adds one draw — hence one point —
to each of its two (distinct) teams.  Concretely, merely starting a match
between the stored teams of `dbC9` puts both on the points leaderboard with
1 point each. -/
theorem started_match_grants_draw (s : DB) (h a mid now : Nat) (v : Option Nat)
    (hne : h ≠ a) :
    teamGroups ((matchDocs s).map (fun m => { m with ended_at := v })) =
      teamGroups (matchDocs s) ∧
    aggDraws (teamGroups (matchDocs (start_match s h a mid now))) h =
      aggDraws (teamGroups (matchDocs s)) h + 1 ∧
    aggDraws (teamGroups (matchDocs (start_match s h a mid now))) a =
      aggDraws (teamGroups (matchDocs s)) a + 1 ∧
    aggPoints ((teamGroups (matchDocs (start_match s h a mid now))).map addPoints) h =
      aggPoints ((teamGroups (matchDocs s)).map addPoints) h + 1 ∧
    aggPoints ((teamGroups (matchDocs (start_match s h a mid now))).map addPoints) a =
      aggPoints ((teamGroups (matchDocs s)).map addPoints) a + 1 ∧
    leaderboard_teams (start_match dbC9 100 101 10 0) .globalScope none none .points 20 =
      [⟨100, "H", "X", "Y", 0, 0, 1⟩, ⟨101, "A", "X", "Z", 0, 0, 1⟩] := by
  have hdocs : matchDocs (start_match s h a mid now) =
      matchDocs s ++ [newMatch h a now] := by
    simp [matchDocs, start_match]
  have hda : ∀ t : Nat, specDrawsFor t (newMatch h a now) =
      (if h = t then 1 else 0) + (if a = t then 1 else 0) := by
    intro t
    simp [specDrawsFor, newMatch]
  have hwa : ∀ t : Nat, specWinsFor t (newMatch h a now) = 0 := by
    intro t
    simp [specWinsFor, newMatch]
  obtain ⟨g1, w1, d1⟩ := teamGroups_sums (matchDocs s) h
  obtain ⟨g2, w2, d2⟩ := teamGroups_sums (matchDocs s) a
  obtain ⟨g3, w3, d3⟩ := teamGroups_sums (matchDocs (start_match s h a mid now)) h
  obtain ⟨g4, w4, d4⟩ := teamGroups_sums (matchDocs (start_match s h a mid now)) a
  have hdrawh : aggDraws (teamGroups (matchDocs (start_match s h a mid now))) h =
      aggDraws (teamGroups (matchDocs s)) h + 1 := by
    rw [d3, d1, hdocs]
    simp [hda, hne, Ne.symm hne]
  have hdrawa : aggDraws (teamGroups (matchDocs (start_match s h a mid now))) a =
      aggDraws (teamGroups (matchDocs s)) a + 1 := by
    rw [d4, d2, hdocs]
    simp [hda, hne, Ne.symm hne]
  have hwinh : aggWins (teamGroups (matchDocs (start_match s h a mid now))) h =
      aggWins (teamGroups (matchDocs s)) h := by
    rw [w3, w1, hdocs]
    simp [hwa]
  have hwina : aggWins (teamGroups (matchDocs (start_match s h a mid now))) a =
      aggWins (teamGroups (matchDocs s)) a := by
    rw [w4, w2, hdocs]
    simp [hwa]
  refine ⟨teamGroups_ignores_ended (matchDocs s) v, hdrawh, hdrawa, ?_, ?_, by rfl⟩
  · rw [aggPoints_map_addPoints, aggPoints_map_addPoints, hdrawh, hwinh]
    omega
  · rw [aggPoints_map_addPoints, aggPoints_map_addPoints, hdrawa, hwina]
    omega

/-- Witness for C9 with teams 100 and 101 of `dbC9`. -/
theorem started_match_grants_draw_witness :
    (100 : Nat) ≠ 101 ∧
    aggDraws (teamGroups (matchDocs (start_match dbC9 100 101 10 0))) 100 =
      aggDraws (teamGroups (matchDocs dbC9)) 100 + 1 ∧
    aggPoints ((teamGroups (matchDocs (start_match dbC9 100 101 10 0))).map addPoints) 100 =
      aggPoints ((teamGroups (matchDocs dbC9)).map addPoints) 100 + 1 :=
  ⟨by decide,
    (started_match_grants_draw dbC9 100 101 10 0 (some 3) (by decide)).2.1,
    (started_match_grants_draw dbC9 100 101 10 0 (some 3) (by decide)).2.2.2.1⟩

/-- Appending a team whose tuple clashes with no stored team keeps the
no-duplicate-tuples invariant. -/
theorem noDup_append_single (l : List (Id × Team)) (idn : Id) (t : Team)
    (hl : noDupTuplesB l = true) (hn : ∀ q ∈ l, tupleEqB q.2 t = false) :
    noDupTuplesB (l ++ [(idn, t)]) = true := by
  induction l with
  | nil => simp [noDupTuplesB]
  | cons p rest ih =>
    rw [List.cons_append, noDupTuplesB]
    rw [noDupTuplesB] at hl
    simp only [Bool.and_eq_true] at hl ⊢
    refine ⟨?_, ih hl.2 (fun q hq => hn q (List.mem_cons_of_mem p hq))⟩
    rw [List.all_append]
    simp only [Bool.and_eq_true]
    refine ⟨hl.1, ?_⟩
    simp only [List.all_cons, List.all_nil, Bool.and_true]
    have := hn p (List.mem_cons_self p rest)
    simp [this]

/-- C8: creating a team whose (name, country, city) tuple equals that of an
already-created team fails with the duplicate-team error — an error value
distinct from the NotFound error and from every invalid-id error — and a
successful creation preserves the at-most-one-team-per-tuple invariant. -/
theorem create_team_conflict (s : DB) (t t2 : Team) (id1 id2 : Id) (s1 : DB) (rid : Id)
    (hn : t2.name = t.name) (hc : t2.country = t.country) (hy : t2.city = t.city)
    (hok : create_team s t id1 = .ok (s1, rid)) :
    create_team s1 t2 id2 = .error teamExistsErr ∧
    teamExistsErr ≠ matchNotFound ∧
    (∀ str, teamExistsErr ≠ invalidIdErr str) ∧
    (noDupTuplesB s.teams = true → noDupTuplesB s1.teams = true) := by
  unfold create_team at hok
  cases hfind : s.teams.find? (fun p =>
      p.2.name == t.name && p.2.country == t.country && p.2.city == t.city) with
  | some q => rw [hfind] at hok; exact absurd hok (by simp)
  | none =>
    rw [hfind] at hok
    simp only [Except.ok.injEq, Prod.mk.injEq] at hok
    obtain ⟨hs1, _⟩ := hok
    subst hs1
    refine ⟨?_, ?_, ?_, ?_⟩
    · unfold create_team
      rw [hn, hc, hy]
      simp only [List.find?_append, hfind, Option.none_or]
      rw [List.find?_cons_of_pos _ (by simp)]
    · intro hcontra
      exact absurd (congrArg HTTPError.status hcontra) (by decide)
    · intro str hcontra
      have hdetail := congrArg HTTPError.detail hcontra
      simp only [teamExistsErr, invalidIdErr] at hdetail
      have hd := congrArg (fun sd => sd.data.head?) hdetail
      simp only [String.data_append] at hd
      simp at hd
    · intro hdup
      refine noDup_append_single s.teams id1 t hdup ?_
      intro q hq
      have hnone := List.find?_eq_none.mp hfind q hq
      simp only [Bool.not_eq_true] at hnone
      exact hnone

/-- Witness for C8: creating "Falcons" twice from the empty database. -/
theorem create_team_conflict_witness :
    create_team emptyDB teamFalcons 1 = .ok (⟨[(1, teamFalcons)], [], []⟩, 1) ∧
    create_team ⟨[(1, teamFalcons)], [], []⟩ teamFalcons 2 = .error teamExistsErr ∧
    teamExistsErr ≠ matchNotFound ∧
    (∀ str, teamExistsErr ≠ invalidIdErr str) ∧
    (noDupTuplesB emptyDB.teams = true →
      noDupTuplesB (DB.teams ⟨[(1, teamFalcons)], [], []⟩) = true) :=
  ⟨by rfl,
    create_team_conflict emptyDB teamFalcons teamFalcons 1 2
      ⟨[(1, teamFalcons)], [], []⟩ 1 rfl rfl rfl (by rfl)⟩

/-- The update `add_event` performs on the fetched match equals the spec's
independent-delta form, provided the match's two sides are distinct teams. -/
theorem applyEventToMatch_eq_spec (m : MatchDoc) (e : EventCreate) (now : Nat)
    (hne : m.home_team_id ≠ m.away_team_id) :
    applyEventToMatch m e now = { m with
      events := m.events ++ [mkEvent e now]
      home_score := m.home_score + specHomeDelta e m.home_team_id m.away_team_id
      away_score := m.away_score + specAwayDelta e m.home_team_id m.away_team_id } := by
  have hne2 : some m.home_team_id ≠ some m.away_team_id := by simpa using hne
  unfold applyEventToMatch specHomeDelta specAwayDelta mkEvent
  cases he : e.type <;>
    by_cases h1 : e.team_id = some m.home_team_id <;>
      by_cases h2 : e.team_id = some m.away_team_id <;>
        simp_all

/-- C3 (amended): on an existing match whose home and away teams are distinct,
`add_event` always appends the event and changes the scores by exactly the
spec's `credit` deltas: +1 home for a goal of the home team, +1 away for a
goal of the away team, flipped credit for an own goal, and no change for any
other type or for an absent/unmatched team. -/
theorem add_event_score_update (s : DB) (mid : Id) (e : EventCreate) (now : Nat)
    (m : MatchDoc) (h : findMatch s mid = some m)
    (hne : m.home_team_id ≠ m.away_team_id) :
    (add_event s mid e now).map (fun s2 => findMatch s2 mid) =
      .ok (some { m with
        events := m.events ++ [mkEvent e now]
        home_score := m.home_score + specHomeDelta e m.home_team_id m.away_team_id
        away_score := m.away_score + specAwayDelta e m.home_team_id m.away_team_id }) := by
  unfold findMatch at h
  cases hf : s.matchColl.find? (fun p => p.1 == mid) with
  | none => rw [hf] at h; exact absurd h (by simp)
  | some p =>
    rw [hf] at h
    simp only [Option.map_some', Option.some.injEq] at h
    subst h
    unfold add_event
    rw [hf]
    simp only [Except.map]
    rw [findMatch_updateFirst]
    unfold findMatch
    rw [hf]
    simp [applyEventToMatch_eq_spec _ _ _ hne]

/-- Delta `specHomeDelta` is the indicator of "effectively credits the home side":
the two summands can never both fire (an event has one type). -/
theorem specHomeDelta_indicator (e : EventCreate) (now : Nat) (home away : Id) :
    specHomeDelta e home away =
      if creditsHomeB home away (mkEvent e now) then 1 else 0 := by
  unfold specHomeDelta creditsHomeB mkEvent
  cases e.type <;>
    by_cases h1 : e.team_id = some home <;>
      by_cases h2 : e.team_id = some away <;>
        simp_all

/-- Delta `specAwayDelta` is the indicator of "effectively credits the away side". -/
theorem specAwayDelta_indicator (e : EventCreate) (now : Nat) (home away : Id) :
    specAwayDelta e home away =
      if creditsAwayB home away (mkEvent e now) then 1 else 0 := by
  unfold specAwayDelta creditsAwayB mkEvent
  cases e.type <;>
    by_cases h1 : e.team_id = some home <;>
      by_cases h2 : e.team_id = some away <;>
        simp_all

/-- Updates by `applyEventToMatch` never change the two team ids. -/
theorem applyEventToMatch_ids (m : MatchDoc) (e : EventCreate) (now : Nat) :
    (applyEventToMatch m e now).home_team_id = m.home_team_id ∧
    (applyEventToMatch m e now).away_team_id = m.away_team_id := by
  unfold applyEventToMatch
  cases e.type <;>
    by_cases h1 : e.team_id = some m.home_team_id <;>
      by_cases h2 : e.team_id = some m.away_team_id <;>
        simp_all [mkEvent]

/-- The score invariant survives one `add_event` update on a match with
distinct sides. -/
theorem scoreInv_applyEvent (m : MatchDoc) (e : EventCreate) (now : Nat)
    (hne : m.home_team_id ≠ m.away_team_id) (hinv : scoreInvB m = true) :
    scoreInvB (applyEventToMatch m e now) = true := by
  have hH := specHomeDelta_indicator e now m.home_team_id m.away_team_id
  have hA := specAwayDelta_indicator e now m.home_team_id m.away_team_id
  rw [applyEventToMatch_eq_spec m e now hne]
  unfold scoreInvB homeCreditEvents awayCreditEvents at hinv ⊢
  simp only [Bool.and_eq_true, beq_iff_eq] at hinv ⊢
  obtain ⟨h1, h2⟩ := hinv
  rw [hH, hA]
  simp only [List.filter_append, List.length_append, List.filter_cons, List.filter_nil]
  constructor
  · by_cases hc : creditsHomeB m.home_team_id m.away_team_id (mkEvent e now) = true <;>
      simp [hc, h1]
  · by_cases hc : creditsAwayB m.home_team_id m.away_team_id (mkEvent e now) = true <;>
      simp [hc, h2]

/-- Modelled `update_one` keeps a `List.all` property when the updater does. -/
theorem all_updateFirst (P : (Id × MatchDoc) → Bool) (ms : List (Id × MatchDoc))
    (mid : Id) (f : MatchDoc → MatchDoc)
    (hall : ms.all P = true) (hf : ∀ p, P p = true → P (p.1, f p.2) = true) :
    (updateFirst ms mid f).all P = true := by
  induction ms with
  | nil => simp [updateFirst]
  | cons p rest ih =>
    rw [updateFirst]
    simp only [List.all_cons, Bool.and_eq_true] at hall
    by_cases h : (p.1 == mid) = true
    · simp only [h, if_true, List.all_cons, Bool.and_eq_true]
      exact ⟨hf p hall.1, hall.2⟩
    · simp only [h, Bool.false_eq_true, if_false, List.all_cons, Bool.and_eq_true]
      exact ⟨hall.1, ih hall.2⟩

/-- Each lifecycle operation preserves the distinct-sided score invariant. -/
theorem allScoreInv_applyOp (s : DB) (op : Op)
    (h : allScoreInvB s = true) : allScoreInvB (applyOp s op) = true := by
  cases op with
  | startOp home away newId now =>
    unfold allScoreInvB at h ⊢
    simp only [applyOp, start_match]
    simp only [List.all_append, Bool.and_eq_true]
    exact ⟨h, by simp [newMatch, scoreInvB, homeCreditEvents, awayCreditEvents]⟩
  | eventOp mid e now =>
    simp only [applyOp]
    cases hf : s.matchColl.find? (fun p => p.1 == mid) with
    | none => simp only [add_event, hf]; exact h
    | some p =>
      simp only [add_event, hf]
      unfold allScoreInvB at h ⊢
      refine all_updateFirst _ _ _ _ h ?_
      intro q hq
      simp only [Bool.or_eq_true] at hq ⊢
      obtain ⟨hh, ha⟩ := applyEventToMatch_ids q.2 e now
      rcases hq with hq | hq
      · exact Or.inl (by rw [hh, ha]; exact hq)
      · by_cases hids : q.2.home_team_id = q.2.away_team_id
        · exact Or.inl (by rw [hh, ha]; simp [hids])
        · exact Or.inr (scoreInv_applyEvent q.2 e now hids hq)
  | endOp mid now =>
    simp only [applyOp]
    cases hf : s.matchColl.find? (fun p => p.1 == mid) with
    | none => simp only [end_match, hf]; exact h
    | some p =>
      simp only [end_match, hf]
      unfold allScoreInvB at h ⊢
      refine all_updateFirst _ _ _ _ h ?_
      intro q hq
      simpa [scoreInvB, homeCreditEvents, awayCreditEvents] using hq

/-- C4 (amended): starting matches and appending any sequence of events (and
ending matches) preserves the invariant that, for every stored match whose
home and away teams are distinct, `home_score` counts the events effectively
crediting the home side (home-team goals plus away-team own goals) and
`away_score` the away-crediting events.  On a freshly started match the
invariant holds (0 events, 0-0), so it holds at every point of any reachable
lifecycle. -/
theorem score_invariant_preserved (s : DB) (ops : List Op)
    (h : allScoreInvB s = true) : allScoreInvB (applyOps s ops) = true := by
  induction ops generalizing s with
  | nil => exact h
  | cons op rest ih =>
    unfold applyOps
    rw [List.foldl_cons]
    exact ih (applyOp s op) (allScoreInv_applyOp s op h)

/-- Witness for C4 (amended): a full lifecycle — start, goal, own goal, end —
run from the empty database. -/
theorem score_invariant_preserved_witness :
    allScoreInvB emptyDB = true ∧
    allScoreInvB (applyOps emptyDB
      [.startOp 1 2 10 0,
       .eventOp 10 { type := .goal, team_id := some 1 } 1,
       .eventOp 10 { type := .own_goal, team_id := some 1 } 2,
       .endOp 10 3]) = true :=
  ⟨by decide,
    score_invariant_preserved emptyDB
      [.startOp 1 2 10 0,
       .eventOp 10 { type := .goal, team_id := some 1 } 1,
       .eventOp 10 { type := .own_goal, team_id := some 1 } 2,
       .endOp 10 3] (by decide)⟩

/-- Counterexample to C4 as stated: the self-match reachable by
`start_match 7 7` followed by a goal of team 7 has `away_score = 0`, yet one
stored event (a goal whose team is the away team 7) effectively credits the
away side, so the claimed invariant fails on this reachable match. -/
theorem score_invariant_counterexample :
    (findMatch (applyOps emptyDB [.startOp 7 7 10 0, .eventOp 10 goalEv7 1]) 10).map
        (fun m => (m.away_score, awayCreditEvents m)) = some (0, 1) ∧
    claimScoreInvAllB (applyOps emptyDB [.startOp 7 7 10 0, .eventOp 10 goalEv7 1]) =
      false :=
  ⟨by decide, by decide⟩

/-- Counterexample to C3 as stated: on the self-match `dbC3` (team 7 on both
sides) a goal event whose team equals the away team leaves the away score at
0 — only the home branch fires — while the claim requires the away score to
be incremented whenever the event's team equals the away team. -/
theorem add_event_self_match_counterexample :
    goalEv7.type = .goal ∧
    goalEv7.team_id = some ((dbC3.matchColl.head (by decide)).2.away_team_id) ∧
    (add_event dbC3 10 goalEv7 1).map (fun s2 =>
        (findMatch s2 10).map (fun m => (m.home_score, m.away_score))) =
      .ok (some (1, 0)) :=
  ⟨rfl, by decide, by rfl⟩

/-- Witness for C3 (amended) at a concrete goal of the home team. -/
theorem add_event_score_update_witness :
    findMatch dbC3w 10 = some mC3w ∧
    mC3w.home_team_id ≠ mC3w.away_team_id ∧
    (add_event dbC3w 10 { type := .goal, team_id := some 1 } 1).map
        (fun s2 => findMatch s2 10) =
      .ok (some { mC3w with
        events := mC3w.events ++ [mkEvent { type := .goal, team_id := some 1 } 1]
        home_score := mC3w.home_score +
          specHomeDelta { type := .goal, team_id := some 1 }
            mC3w.home_team_id mC3w.away_team_id
        away_score := mC3w.away_score +
          specAwayDelta { type := .goal, team_id := some 1 }
            mC3w.home_team_id mC3w.away_team_id }) :=
  ⟨by decide, by decide,
    add_event_score_update dbC3w 10 { type := .goal, team_id := some 1 } 1 mC3w
      (by decide) (by decide)⟩

/-- C10: `end_match` fails (with the NotFound error) exactly when the match id
does not resolve; on any existing match — already ended or not — it succeeds
and overwrites both the end timestamp and the winner, the winner recomputed
from the score counters current at that moment.  Concretely, the `dbC10`
match ended with winner team 1 can be re-ended after two post-end own goals,
yielding winner team 2 and a fresh end timestamp. -/
theorem end_match_notfound_iff_and_reend_overwrites (s : DB) (mid : Id) (now : Nat) :
    (end_match s mid now = .error matchNotFound ↔ findMatch s mid = none) ∧
    (∀ m, findMatch s mid = some m →
      (end_match s mid now).map (fun s2 => findMatch s2 mid) =
        .ok (some { m with ended_at := some now, winner_team_id := winnerOf m })) ∧
    (findMatch dbC10 10).map (fun m => (m.ended_at, m.winner_team_id)) =
        some (some 2, some 1) ∧
    (end_match dbC10 10 9).map (fun s2 =>
        (findMatch s2 10).map (fun m => (m.ended_at, m.winner_team_id))) =
      .ok (some (some 9, some 2)) := by
  refine ⟨?_, ?_, by decide, by rfl⟩
  · unfold end_match findMatch
    cases hf : s.matchColl.find? (fun p => p.1 == mid) <;> simp
  · intro m h
    unfold findMatch at h
    cases hf : s.matchColl.find? (fun p => p.1 == mid) with
    | none => rw [hf] at h; exact absurd h (by simp)
    | some p =>
      rw [hf] at h
      simp only [Option.map_some', Option.some.injEq] at h
      subst h
      unfold end_match
      rw [hf]
      simp only [Except.map]
      rw [findMatch_updateFirst]
      unfold findMatch
      rw [hf]
      simp

/-- Witness for C10: re-ending the already-ended `dbC10` match. -/
theorem end_match_notfound_iff_and_reend_overwrites_witness :
    findMatch dbC10 10 = some mC10 ∧
    (end_match dbC10 10 9).map (fun s2 => findMatch s2 10) =
      .ok (some { mC10 with ended_at := some 9, winner_team_id := winnerOf mC10 }) :=
  ⟨by decide,
    (end_match_notfound_iff_and_reend_overwrites dbC10 10 9).2.1 mC10 (by decide)⟩

/-- C7: a country/city-scoped team leaderboard whose resolved team-id set is
empty, and a player leaderboard whose resolved player-id set is empty, both
short-circuit to the empty list (a successful result, not an error). -/
theorem empty_scope_short_circuits
    (s : DB) (scope : Scope) (country city : Option String)
    (stat : TeamStat) (limit : Nat)
    (s2 : DB) (scope2 : Scope) (country2 city2 : Option String)
    (stat2 : PlayerStat) (limit2 : Nat)
    (hscope : scope = .country ∨ scope = .city)
    (hteams : teamScopeIds s scope country city = [])
    (hplayers : playerScopeIds s2 scope2 country2 city2 = some []) :
    leaderboard_teams s scope country city stat limit = [] ∧
    leaderboard_players s2 scope2 country2 city2 stat2 limit2 = [] := by
  constructor
  · rcases hscope with h | h <;> subst h <;> simp [leaderboard_teams, hteams]
  · simp [leaderboard_players, hplayers]

/-- Witness for C7: a country matching zero stored teams and a country
matching zero stored players. -/
theorem empty_scope_short_circuits_witness :
    ((Scope.country = Scope.country ∨ Scope.country = Scope.city) ∧
      teamScopeIds dbC9 .country (some "Nowhere") none = [] ∧
      playerScopeIds dbC2 .country (some "C") none = some []) ∧
    leaderboard_teams dbC9 .country (some "Nowhere") none .goals 20 = [] ∧
    leaderboard_players dbC2 .country (some "C") none .goals 20 = [] :=
  ⟨⟨Or.inl rfl, by decide, by decide⟩,
    empty_scope_short_circuits dbC9 .country (some "Nowhere") none .goals 20
      dbC2 .country (some "C") none .goals 20 (Or.inl rfl) (by decide) (by decide)⟩

end Futsal
